import Mathlib

/-
  Verification of src/supervisor_and_worker.py.

  Shallow embedding conventions:
  * Python values passed to the validating setters may have any runtime
    type, so setter inputs are drawn from a small universe `PyVal` of the
    value kinds the program manipulates (ints, bools, strings, Shift enum
    members, None).  `type(x) is int` is false for bools, as in Python.
  * A Python comparison `v < n` between a non-number and an int raises
    TypeError; this is modelled by `PyVal.ltInt` returning `Except`.
  * `str.isnumeric` is modelled over ASCII digits: a string is numeric iff
    it is non-empty and all of its characters are digits (so the empty
    string is NOT numeric, exactly as in Python).
  * Enum membership `x in Shift` follows the semantics of the Python
    version the program targets (3.7, per its 2019 creation date): it is
    true exactly for members of `Shift`, and false (not an error) for any
    other value.
  * The numpy roster `numpy.empty(shape=(1, C), dtype=ProductionWorker)`
    is a size-C array of `None` object slots; it is modelled as a
    `List (Option Worker)` of length C.  `numpy.append` flattens and
    appends at the end; `numpy.delete(a, 0)` drops the element at index 0.
-/

set_option autoImplicit false

namespace SupWork

/-- The `Shift` enum (DAY = 1, SWING = 2, NIGHT = 3). -/
inductive Shift where
  | DAY
  | SWING
  | NIGHT
deriving DecidableEq, Repr

/-- Universe of Python runtime values handled by the program. -/
inductive PyVal where
  | pyInt (n : Int)
  | pyBool (b : Bool)
  | pyStr (s : String)
  | pyShift (sh : Shift)
  | pyNone
deriving DecidableEq, Repr

/-- Python exception kinds the embedded code can raise. -/
inductive PyError where
  | typeError
deriving DecidableEq, Repr

/-- The underlying integer of a numeric value (only read under a guard
that established the value is an int). -/
def PyVal.asInt : PyVal → Int
  | .pyInt n => n
  | .pyBool b => if b then 1 else 0
  | _ => 0

/-- The underlying string of a value (only read under a guard that
established the value is a string). -/
def PyVal.asStr : PyVal → String
  | .pyStr s => s
  | _ => ""

/-- Python comparison `v < n` against an int: defined for numbers
(ints and bools), raises TypeError otherwise. -/
def PyVal.ltInt : PyVal → Int → Except PyError Bool
  | .pyInt m, n => .ok (decide (m < n))
  | .pyBool b, n => .ok (decide ((if b then (1 : Int) else 0) < n))
  | _, _ => .error .typeError

/-- A value is order-comparable with an int iff it is an int or a bool. -/
def PyVal.intComparable : PyVal → Bool
  | .pyInt _ => true
  | .pyBool _ => true
  | _ => false

/-- Model of `str.isnumeric` (restricted to ASCII digits): non-empty and
all characters numeric.  In particular the empty string is not numeric. -/
def isnumeric (s : String) : Bool :=
  !s.data.isEmpty && s.data.all Char.isDigit

-- ===================== Base class: Employee =====================

namespace Employee

def DEFAULT_NAME : String := "unidentified"

def DEFAULT_NUM : Int := 1234

def BENEFIT_ID : Int := 5000

def MIN_EMPLY_NUM : Int := 1000

def MAX_EMPLY_NUM : Int := 99999

/-- `Employee.validate_name`: `type(the_name) is str and
the_name.isnumeric() is False`. -/
def validate_name : PyVal → Bool
  | .pyStr s => !(isnumeric s)
  | _ => false

/-- `Employee.validate_id`: `type(employee_id) is int and
MIN_EMPLY_NUM <= employee_id <= MAX_EMPLY_NUM`. -/
def validate_id : PyVal → Bool
  | .pyInt n => decide (MIN_EMPLY_NUM ≤ n ∧ n ≤ MAX_EMPLY_NUM)
  | _ => false

/-- `Employee.determine_benefits(number)`: `number < BENEFIT_ID`.  Called
by the id setter with the RAW argument, so a non-numeric argument raises
TypeError. -/
def determine_benefits (v : PyVal) : Except PyError Bool :=
  v.ltInt BENEFIT_ID

/-- The `employee_name` setter: store the value if `validate_name`
accepts it, else store `DEFAULT_NAME`. -/
def set_employee_name (v : PyVal) : String :=
  if validate_name v then v.asStr else DEFAULT_NAME

/-- The `employee_num` setter: store the value if `validate_id` accepts
it, else store `DEFAULT_NUM`; then recompute the benefits flag by calling
`determine_benefits` on the RAW input `number` (not the stored id).
Returns the final (number, benefits) pair, or the TypeError that
`determine_benefits` raises on a non-numeric input. -/
def set_employee_num (v : PyVal) : Except PyError (Int × Bool) := do
  let number := if validate_id v then v.asInt else DEFAULT_NUM
  let b ← determine_benefits v
  pure (number, b)

/-- The `employee_num` setter specialised to an int argument (on which it
never raises): the stored id and benefits flag. -/
def set_employee_num_int (n : Int) : Int × Bool :=
  ((if validate_id (.pyInt n) then n else DEFAULT_NUM), decide (n < BENEFIT_ID))

end Employee

-- ================ Derived class: ProductionWorker ================

namespace ProductionWorker

def DEFAULT_SHIFT : Shift := Shift.DAY

def DEFAULT_HOURLY_RAY_RATE : Int := 1

def DEFAULT_HOURS_WORKED : Int := 0

def MIN_HOURLY_PAY_RATE : Int := 0

def MAX_HOURLY_PAY_RATE : Int := 20

def MIN_HOURS_WORKED : Int := 0

def MAX_HOURS_WORKED : Int := 40

/-- The enum value lookup `Shift(n)`; only reached for n in 1..3. -/
def shiftOfInt : Int → Shift
  | 1 => Shift.DAY
  | 2 => Shift.SWING
  | 3 => Shift.NIGHT
  | _ => Shift.DAY

/-- The `employee_shift` setter: a `Shift` member is stored as-is
(`shift in Shift`); else an int in 1..3 is mapped through `Shift(shift)`;
anything else gets `DEFAULT_SHIFT`. -/
def set_employee_shift : PyVal → Shift
  | .pyShift sh => sh
  | .pyInt n => if 1 ≤ n ∧ n ≤ 3 then shiftOfInt n else DEFAULT_SHIFT
  | _ => DEFAULT_SHIFT

/-- `ProductionWorker.validate_rate`: `type(rate) is int and
MIN_HOURLY_PAY_RATE <= rate <= MAX_HOURLY_PAY_RATE`. -/
def validate_rate : PyVal → Bool
  | .pyInt n => decide (MIN_HOURLY_PAY_RATE ≤ n ∧ n ≤ MAX_HOURLY_PAY_RATE)
  | _ => false

/-- `ProductionWorker.validate_hour`: `type(hour) is int and
MIN_HOURS_WORKED <= hour <= MAX_HOURS_WORKED`. -/
def validate_hour : PyVal → Bool
  | .pyInt n => decide (MIN_HOURS_WORKED ≤ n ∧ n ≤ MAX_HOURS_WORKED)
  | _ => false

/-- The `hourly_pay_rate` setter: validate-or-default. -/
def set_hourly_pay_rate (v : PyVal) : Int :=
  if validate_rate v then v.asInt else DEFAULT_HOURLY_RAY_RATE

/-- The `hours_worked` setter: validate-or-default. -/
def set_hours_worked (v : PyVal) : Int :=
  if validate_hour v then v.asInt else DEFAULT_HOURS_WORKED

/-- `ProductionWorker.gross_pay(rate, hour)`: re-validates both
arguments; `rate * hour` if both pass, else 0. -/
def gross_pay (rate hour : PyVal) : Int :=
  if validate_rate rate && validate_hour hour then rate.asInt * hour.asInt else 0

end ProductionWorker

/-- The state of a `ProductionWorker` object: base-class fields plus
shift, hourly rate and hours worked. -/
structure Worker where
  shift : Shift
  rate : Int
  hour : Int
  name : String
  number : Int
  benefits : Bool
deriving DecidableEq, Repr

namespace ProductionWorker

/-- `ProductionWorker.__init__(name, number, shift, rate, hour)`: runs the
shift/rate/hour setters, then `Employee.__init__` (name and id setters).
The id argument is taken as an int, on which the id setter cannot raise. -/
def initWorker (name : PyVal) (number : Int) (shift rate hour : PyVal) : Worker :=
  { shift := set_employee_shift shift
    rate := set_hourly_pay_rate rate
    hour := set_hours_worked hour
    name := Employee.set_employee_name name
    number := (Employee.set_employee_num_int number).1
    benefits := (Employee.set_employee_num_int number).2 }

/-- One mutation of a `ProductionWorker` object through its public
setters (id restricted to int arguments, on which it does not raise). -/
inductive WStep : Worker → Worker → Prop where
  | setShift (w : Worker) (v : PyVal) :
      WStep w { w with shift := set_employee_shift v }
  | setRate (w : Worker) (v : PyVal) :
      WStep w { w with rate := set_hourly_pay_rate v }
  | setHour (w : Worker) (v : PyVal) :
      WStep w { w with hour := set_hours_worked v }
  | setName (w : Worker) (v : PyVal) :
      WStep w { w with name := Employee.set_employee_name v }
  | setNum (w : Worker) (n : Int) :
      WStep w { w with number := (Employee.set_employee_num_int n).1,
                       benefits := (Employee.set_employee_num_int n).2 }

/-- Worker states reachable by construction followed by any sequence of
setter calls. -/
inductive ReachableW : Worker → Prop where
  | init (name : PyVal) (number : Int) (shift rate hour : PyVal) :
      ReachableW (initWorker name number shift rate hour)
  | step (w w' : Worker) : ReachableW w → WStep w w' → ReachableW w'

end ProductionWorker

-- ================ Derived class: ShiftSupervisor ================

/-- The state of a `ShiftSupervisor` object: base-class fields plus
salary, shift, the numpy roster and the worker count. -/
structure Supervisor where
  salary : Int
  shift : Shift
  emp_array : List (Option Worker)
  num_worker : Int
  name : String
  number : Int
  benefits : Bool
deriving DecidableEq, Repr

/-- The error raised when the supervisor roster is full (`IsFull`). -/
inductive RosterErr where
  | isFull
deriving DecidableEq, Repr

namespace ShiftSupervisor

def DEFAULT_SALARY : Int := 50000

def MIN_SALARY : Int := 50000

def MAX_SALARY : Int := 200000

def DEFAULT_SHIFT : Shift := Shift.DAY

def DEFAULT_CAPACITY : Int := 10

def DEFAULT_NUM_OF_WORKERS : Int := 0

def BONUS_ADD_TO_SALARY : Int := 10000

def WORKERS_REQUIRED : Int := 4

/-- `ShiftSupervisor.valid_salary`: `type(salary) is int and
MIN_SALARY <= salary <= MAX_SALARY`. -/
def valid_salary : PyVal → Bool
  | .pyInt n => decide (MIN_SALARY ≤ n ∧ n ≤ MAX_SALARY)
  | _ => false

/-- The `annual_salary` setter: validate-or-default. -/
def set_annual_salary (v : PyVal) : Int :=
  if valid_salary v then v.asInt else DEFAULT_SALARY

/-- The `supervisor_shift` setter: a `Shift` member is stored as-is
(`type(shift) is Shift`); else an int in 1..3 maps through `Shift(shift)`;
anything else gets `DEFAULT_SHIFT`. -/
def set_supervisor_shift : PyVal → Shift
  | .pyShift sh => sh
  | .pyInt n => if 1 ≤ n ∧ n ≤ 3 then ProductionWorker.shiftOfInt n else DEFAULT_SHIFT
  | _ => DEFAULT_SHIFT

/-- `ShiftSupervisor.valid_arr_capacity`: a positive int is used as the
roster capacity, anything else falls back to `DEFAULT_CAPACITY`. -/
def valid_arr_capacity : PyVal → Int
  | .pyInt n => if 0 < n then n else DEFAULT_CAPACITY
  | _ => DEFAULT_CAPACITY

/-- The `number_of_workers` setter: any value `<= 0` resets the count to
`DEFAULT_NUM_OF_WORKERS` (0); otherwise the value is stored. -/
def set_number_of_workers (n : Int) : Int :=
  if n ≤ 0 then DEFAULT_NUM_OF_WORKERS else n

/-- `ShiftSupervisor.__init__(name, number, salary, shift, emp_array,
num_worker)`: salary/shift setters, a fresh roster of
`valid_arr_capacity emp_array` empty (None) slots, the worker-count
setter, then `Employee.__init__`. -/
def initSup (name : PyVal) (number : Int) (salary shift cap : PyVal)
    (nw : Int) : Supervisor :=
  { salary := set_annual_salary salary
    shift := set_supervisor_shift shift
    emp_array := List.replicate (valid_arr_capacity cap).toNat none
    num_worker := set_number_of_workers nw
    name := Employee.set_employee_name name
    number := (Employee.set_employee_num_int number).1
    benefits := (Employee.set_employee_num_int number).2 }

/-- `ShiftSupervisor.shift_valid(worker)`: the worker's shift is
(identically) the supervisor's shift. -/
def shift_valid (s : Supervisor) (w : Worker) : Bool :=
  w.shift == s.shift

/-- `ShiftSupervisor.add_to_array(worker)`: early return when the shift
does not match; raise `IsFull` when `emp_array.size <= number_of_workers`
(the `except ValueError` branch in the source is dead code: the
comparison of two ints cannot raise ValueError); otherwise
`numpy.append` the worker, `numpy.delete` index 0, and increment the
worker count through its setter. -/
def add_to_array (s : Supervisor) (w : Worker) : Except RosterErr Supervisor :=
  if shift_valid s w then
    if (s.emp_array.length : Int) ≤ s.num_worker then
      .error .isFull
    else
      .ok { s with
              emp_array := (s.emp_array ++ [some w]).drop 1
              num_worker := set_number_of_workers (s.num_worker + 1) }
  else
    .ok s

/-- The supervisor state after `add_to_array` returns or raises: a raise
happens before any field is written, so the state is unchanged then. -/
def addResult (s : Supervisor) (w : Worker) : Supervisor :=
  match add_to_array s w with
  | .ok t => t
  | .error _ => s

/-- `ShiftSupervisor.bonus()`: when `number_of_workers > WORKERS_REQUIRED`,
assign `annual_salary + BONUS_ADD_TO_SALARY` through the `annual_salary`
setter (which validates and may fall back to the default) and return
true; otherwise change nothing and return false. -/
def bonus (s : Supervisor) : Supervisor × Bool :=
  if s.num_worker > WORKERS_REQUIRED then
    ({ s with salary := set_annual_salary (.pyInt (s.salary + BONUS_ADD_TO_SALARY)) }, true)
  else
    (s, false)

/-- The number of roster slots actually holding a worker (the source
counts the non-None entries of `emp_array`). -/
def occupied (a : List (Option Worker)) : Nat :=
  a.countP (fun o => o.isSome)

/-- One mutation of a `ShiftSupervisor` object through its public
operations: `add_to_array`, `bonus`, and the salary / shift / name / id
setters (id restricted to int arguments, on which it does not raise). -/
inductive SStep : Supervisor → Supervisor → Prop where
  | add (s : Supervisor) (w : Worker) : SStep s (addResult s w)
  | getBonus (s : Supervisor) : SStep s (bonus s).1
  | setSalary (s : Supervisor) (v : PyVal) :
      SStep s { s with salary := set_annual_salary v }
  | setShift (s : Supervisor) (v : PyVal) :
      SStep s { s with shift := set_supervisor_shift v }
  | setName (s : Supervisor) (v : PyVal) :
      SStep s { s with name := Employee.set_employee_name v }
  | setNum (s : Supervisor) (n : Int) :
      SStep s { s with number := (Employee.set_employee_num_int n).1,
                       benefits := (Employee.set_employee_num_int n).2 }

/-- Supervisor states reachable by any construction (including one that
supplies an explicit positive worker count) followed by any sequence of
operations. -/
inductive ReachableSup : Supervisor → Prop where
  | init (name : PyVal) (number : Int) (salary shift cap : PyVal) (nw : Int) :
      ReachableSup (initSup name number salary shift cap nw)
  | step (s t : Supervisor) : ReachableSup s → SStep s t → ReachableSup t

/-- Supervisor states reachable from a construction whose worker-count
argument is non-positive (this covers the default 0). -/
inductive ReachableSup0 : Supervisor → Prop where
  | init (name : PyVal) (number : Int) (salary shift cap : PyVal) (nw : Int)
      (h : nw ≤ 0) : ReachableSup0 (initSup name number salary shift cap nw)
  | step (s t : Supervisor) : ReachableSup0 s → SStep s t → ReachableSup0 t

/-- Roster shape invariant (any construction): the roster is a block of
None slots followed by a block of workers, and the number of held workers
is at most the stored worker count. -/
def RosterInv (s : Supervisor) : Prop :=
  ∃ (k : Nat) (ws : List Worker),
    s.emp_array = List.replicate k none ++ ws.map some ∧
    (ws.length : Int) ≤ s.num_worker

/-- Roster shape invariant (construction with non-positive worker count):
as `RosterInv`, with the stored count exactly the number of held
workers. -/
def RosterInv0 (s : Supervisor) : Prop :=
  ∃ (k : Nat) (ws : List Worker),
    s.emp_array = List.replicate k none ++ ws.map some ∧
    (ws.length : Int) = s.num_worker

end ShiftSupervisor

-- ===================== Concrete sample states =====================

/-- A supervisor on the DAY shift with roster capacity 1 and no workers. -/
def supCap1 : Supervisor :=
  ShiftSupervisor.initSup (.pyStr ("Zach")) 1500 (.pyInt 60000)
    (.pyShift Shift.DAY) (.pyInt 1) 0

/-- A DAY-shift production worker. -/
def workerDay : Worker :=
  ProductionWorker.initWorker (.pyStr ("Marco")) 2000 (.pyShift Shift.DAY)
    (.pyInt 10) (.pyInt 10)

/-- A NIGHT-shift production worker. -/
def workerNight : Worker :=
  ProductionWorker.initWorker (.pyStr ("Helen")) 2000 (.pyShift Shift.NIGHT)
    (.pyInt 10) (.pyInt 10)

/-- `supCap1` after adding `workerDay`: its capacity-1 roster is full. -/
def supFull : Supervisor := ShiftSupervisor.addResult supCap1 workerDay

/-- A supervisor constructed with an explicit worker count of 5 while its
roster is empty. -/
def supQuirk : Supervisor :=
  ShiftSupervisor.initSup (.pyStr ("Zach")) 1500 (.pyInt 60000)
    (.pyShift Shift.DAY) (.pyInt 10) 5

/-- A supervisor with salary 195000 and worker count 5 (above the bonus
threshold, and within 10000 of the salary cap). -/
def supHighPay : Supervisor :=
  ShiftSupervisor.initSup (.pyStr ("Zach")) 1500 (.pyInt 195000)
    (.pyShift Shift.DAY) (.pyInt 10) 5

/-- A supervisor with salary 60000 and worker count 5. -/
def supMidPay : Supervisor :=
  ShiftSupervisor.initSup (.pyStr ("Zach")) 1500 (.pyInt 60000)
    (.pyShift Shift.DAY) (.pyInt 10) 5

-- ===================== Helper lemmas =====================

/-- A roster made of a block of empty slots followed by a block of
workers holds exactly as many workers as the second block is long. -/
theorem occupied_block (k : Nat) (ws : List Worker) :
    ShiftSupervisor.occupied (List.replicate k none ++ ws.map some) = ws.length := by
  unfold ShiftSupervisor.occupied
  rw [List.countP_append]
  have h1 : List.countP (fun o => Option.isSome o)
      (List.replicate k (none : Option Worker)) = 0 := by
    induction k with
    | zero => rfl
    | succ n ih => rw [List.replicate_succ, List.countP_cons]; simp [ih]
  have h2 : List.countP (fun o => Option.isSome o) (ws.map some) = ws.length := by
    induction ws with
    | nil => rfl
    | cons a l ih => simp [List.countP_cons, ih]
  omega

/-- The worker-count setter never stores a negative value. -/
theorem set_number_of_workers_nonneg (n : Int) :
    0 ≤ ShiftSupervisor.set_number_of_workers n := by
  unfold ShiftSupervisor.set_number_of_workers ShiftSupervisor.DEFAULT_NUM_OF_WORKERS
  split <;> omega

/-- Appending a worker and dropping slot 0 of a roster that starts with
an empty slot keeps the leading-empty-slots/worker-block shape. -/
theorem add_emp_array_eq (s : Supervisor) (w : Worker) (k : Nat) (ws : List Worker)
    (ha : s.emp_array = List.replicate (k + 1) none ++ ws.map some) :
    (s.emp_array ++ [some w]).drop 1 =
      List.replicate k none ++ (ws ++ [w]).map some := by
  rw [ha, List.replicate_succ]
  simp [List.append_assoc]

/-- A validate-or-default assignment yields the default or the candidate. -/
theorem ite_default_or {α : Type} (c : Bool) (a d : α) :
    (if c then a else d) = d ∨ (if c then a else d) = a := by
  cases c <;> simp

/-- Whatever is passed to the `hourly_pay_rate` setter, the stored rate
lies in [0, 20]. -/
theorem rate_range (v : PyVal) :
    0 ≤ ProductionWorker.set_hourly_pay_rate v ∧
      ProductionWorker.set_hourly_pay_rate v ≤ 20 := by
  unfold ProductionWorker.set_hourly_pay_rate
  split
  · rename_i h
    cases v <;>
      simp_all [ProductionWorker.validate_rate, ProductionWorker.MIN_HOURLY_PAY_RATE,
        ProductionWorker.MAX_HOURLY_PAY_RATE, PyVal.asInt]
  · unfold ProductionWorker.DEFAULT_HOURLY_RAY_RATE
    omega

/-- Whatever is passed to the `hours_worked` setter, the stored hours lie
in [0, 40]. -/
theorem hour_range (v : PyVal) :
    0 ≤ ProductionWorker.set_hours_worked v ∧
      ProductionWorker.set_hours_worked v ≤ 40 := by
  unfold ProductionWorker.set_hours_worked
  split
  · rename_i h
    cases v <;>
      simp_all [ProductionWorker.validate_hour, ProductionWorker.MIN_HOURS_WORKED,
        ProductionWorker.MAX_HOURS_WORKED, PyVal.asInt]
  · unfold ProductionWorker.DEFAULT_HOURS_WORKED
    omega

/-- On an int rate in [0, 20] and int hours in [0, 40], `gross_pay`
returns their product. -/
theorem gross_pay_valid (r h : Int) (hr0 : 0 ≤ r) (hr1 : r ≤ 20)
    (hh0 : 0 ≤ h) (hh1 : h ≤ 40) :
    ProductionWorker.gross_pay (.pyInt r) (.pyInt h) = r * h := by
  have h1 : ProductionWorker.validate_rate (.pyInt r) = true := by
    simp [ProductionWorker.validate_rate, ProductionWorker.MIN_HOURLY_PAY_RATE,
      ProductionWorker.MAX_HOURLY_PAY_RATE]
    omega
  have h2 : ProductionWorker.validate_hour (.pyInt h) = true := by
    simp [ProductionWorker.validate_hour, ProductionWorker.MIN_HOURS_WORKED,
      ProductionWorker.MAX_HOURS_WORKED]
    omega
  simp [ProductionWorker.gross_pay, h1, h2, PyVal.asInt]

/-- `add_to_array` on a shift-matching worker and a full roster raises
`IsFull`. -/
theorem add_to_array_full (s : Supervisor) (w : Worker)
    (h1 : ShiftSupervisor.shift_valid s w = true)
    (h2 : (s.emp_array.length : Int) ≤ s.num_worker) :
    ShiftSupervisor.add_to_array s w = .error .isFull := by
  unfold ShiftSupervisor.add_to_array
  rw [if_pos h1, if_pos h2]

/-- `add_to_array` on a shift-matching worker and a non-full roster
appends the worker (dropping slot 0) and bumps the count. -/
theorem add_to_array_success (s : Supervisor) (w : Worker)
    (h1 : ShiftSupervisor.shift_valid s w = true)
    (h2 : ¬ ((s.emp_array.length : Int) ≤ s.num_worker)) :
    ShiftSupervisor.add_to_array s w = .ok
      { s with emp_array := (s.emp_array ++ [some w]).drop 1
               num_worker := ShiftSupervisor.set_number_of_workers (s.num_worker + 1) } := by
  unfold ShiftSupervisor.add_to_array
  rw [if_pos h1, if_neg h2]

/-- `add_to_array` on a shift-mismatched worker returns with no change. -/
theorem add_to_array_mismatch (s : Supervisor) (w : Worker)
    (h1 : ¬ (ShiftSupervisor.shift_valid s w = true)) :
    ShiftSupervisor.add_to_array s w = .ok s := by
  unfold ShiftSupervisor.add_to_array
  rw [if_neg h1]

/-- `add_to_array` preserves the roster shape invariant. -/
theorem add_rosterInv (s : Supervisor) (w : Worker)
    (h : ShiftSupervisor.RosterInv s) :
    ShiftSupervisor.RosterInv (ShiftSupervisor.addResult s w) := by
  obtain ⟨k, ws, ha, hle⟩ := h
  by_cases hv : ShiftSupervisor.shift_valid s w = true
  · by_cases hful : (s.emp_array.length : Int) ≤ s.num_worker
    · unfold ShiftSupervisor.addResult
      rw [add_to_array_full s w hv hful]
      exact ⟨k, ws, ha, hle⟩
    · unfold ShiftSupervisor.addResult
      rw [add_to_array_success s w hv hful]
      have hlen : s.emp_array.length = k + ws.length := by rw [ha]; simp
      have hnum : s.num_worker < (k : Int) + (ws.length : Int) := by
        push_neg at hful
        rw [hlen] at hful
        push_cast at hful
        exact hful
      have hk : 0 < k := by omega
      obtain ⟨m, rfl⟩ : ∃ m, k = m + 1 := ⟨k - 1, by omega⟩
      refine ⟨m, ws ++ [w], ?_, ?_⟩
      · show (s.emp_array ++ [some w]).drop 1 = _
        exact add_emp_array_eq s w m ws ha
      · show ((ws ++ [w]).length : Int) ≤
          ShiftSupervisor.set_number_of_workers (s.num_worker + 1)
        unfold ShiftSupervisor.set_number_of_workers
        rw [if_neg (by omega : ¬ (s.num_worker + 1 ≤ 0))]
        simp only [List.length_append, List.length_singleton]
        push_cast
        omega
  · unfold ShiftSupervisor.addResult
    rw [add_to_array_mismatch s w hv]
    exact ⟨k, ws, ha, hle⟩

/-- `add_to_array` preserves the exact-count roster shape invariant. -/
theorem add_rosterInv0 (s : Supervisor) (w : Worker)
    (h : ShiftSupervisor.RosterInv0 s) :
    ShiftSupervisor.RosterInv0 (ShiftSupervisor.addResult s w) := by
  obtain ⟨k, ws, ha, heq⟩ := h
  by_cases hv : ShiftSupervisor.shift_valid s w = true
  · by_cases hful : (s.emp_array.length : Int) ≤ s.num_worker
    · unfold ShiftSupervisor.addResult
      rw [add_to_array_full s w hv hful]
      exact ⟨k, ws, ha, heq⟩
    · unfold ShiftSupervisor.addResult
      rw [add_to_array_success s w hv hful]
      have hlen : s.emp_array.length = k + ws.length := by rw [ha]; simp
      have hnum : s.num_worker < (k : Int) + (ws.length : Int) := by
        push_neg at hful
        rw [hlen] at hful
        push_cast at hful
        exact hful
      have hk : 0 < k := by omega
      obtain ⟨m, rfl⟩ : ∃ m, k = m + 1 := ⟨k - 1, by omega⟩
      refine ⟨m, ws ++ [w], ?_, ?_⟩
      · show (s.emp_array ++ [some w]).drop 1 = _
        exact add_emp_array_eq s w m ws ha
      · show ((ws ++ [w]).length : Int) =
          ShiftSupervisor.set_number_of_workers (s.num_worker + 1)
        unfold ShiftSupervisor.set_number_of_workers
        rw [if_neg (by omega : ¬ (s.num_worker + 1 ≤ 0))]
        simp only [List.length_append, List.length_singleton]
        push_cast
        omega
  · unfold ShiftSupervisor.addResult
    rw [add_to_array_mismatch s w hv]
    exact ⟨k, ws, ha, heq⟩

/-- Every supervisor operation preserves the roster shape invariant. -/
theorem sStep_rosterInv (s t : Supervisor) (hstep : ShiftSupervisor.SStep s t)
    (h : ShiftSupervisor.RosterInv s) : ShiftSupervisor.RosterInv t := by
  obtain ⟨k, ws, ha, hle⟩ := h
  cases hstep with
  | add w => exact add_rosterInv s w ⟨k, ws, ha, hle⟩
  | getBonus =>
      unfold ShiftSupervisor.bonus
      split
      · exact ⟨k, ws, ha, hle⟩
      · exact ⟨k, ws, ha, hle⟩
  | setSalary v => exact ⟨k, ws, ha, hle⟩
  | setShift v => exact ⟨k, ws, ha, hle⟩
  | setName v => exact ⟨k, ws, ha, hle⟩
  | setNum n => exact ⟨k, ws, ha, hle⟩

/-- Every supervisor operation preserves the exact-count invariant. -/
theorem sStep_rosterInv0 (s t : Supervisor) (hstep : ShiftSupervisor.SStep s t)
    (h : ShiftSupervisor.RosterInv0 s) : ShiftSupervisor.RosterInv0 t := by
  obtain ⟨k, ws, ha, heq⟩ := h
  cases hstep with
  | add w => exact add_rosterInv0 s w ⟨k, ws, ha, heq⟩
  | getBonus =>
      unfold ShiftSupervisor.bonus
      split
      · exact ⟨k, ws, ha, heq⟩
      · exact ⟨k, ws, ha, heq⟩
  | setSalary v => exact ⟨k, ws, ha, heq⟩
  | setShift v => exact ⟨k, ws, ha, heq⟩
  | setName v => exact ⟨k, ws, ha, heq⟩
  | setNum n => exact ⟨k, ws, ha, heq⟩

/-- Every reachable supervisor state satisfies the roster shape
invariant. -/
theorem reachable_rosterInv (s : Supervisor)
    (h : ShiftSupervisor.ReachableSup s) : ShiftSupervisor.RosterInv s := by
  induction h with
  | init name number salary shift cap nw =>
      refine ⟨(ShiftSupervisor.valid_arr_capacity cap).toNat, [], by simp [ShiftSupervisor.initSup], ?_⟩
      simpa using set_number_of_workers_nonneg nw
  | step s t hs hstep ih => exact sStep_rosterInv s t hstep ih

/-- Every supervisor state reachable from a construction with a
non-positive worker count satisfies the exact-count invariant. -/
theorem reachable0_rosterInv0 (s : Supervisor)
    (h : ShiftSupervisor.ReachableSup0 s) : ShiftSupervisor.RosterInv0 s := by
  induction h with
  | init name number salary shift cap nw hnw =>
      refine ⟨(ShiftSupervisor.valid_arr_capacity cap).toNat, [], by simp [ShiftSupervisor.initSup], ?_⟩
      show (0 : Int) = ShiftSupervisor.set_number_of_workers nw
      unfold ShiftSupervisor.set_number_of_workers ShiftSupervisor.DEFAULT_NUM_OF_WORKERS
      simp [hnw]
  | step s t hs hstep ih => exact sStep_rosterInv0 s t hstep ih

-- ===================== Claim theorems =====================

/-- C1 (counterexample): for the integer id 100000 the setter stores the
default id 1234, which is below the benefit threshold 5000, yet the
benefits flag comes out false — so the flag is NOT recomputed from the
final stored id. -/
theorem C1_counterexample :
    Employee.set_employee_num (.pyInt 100000) = .ok (1234, false) ∧
      Employee.DEFAULT_NUM < Employee.BENEFIT_ID := by
  constructor
  · rfl
  · decide

/-- C1 (amended): for every integer id, the setter stores id when
1000 ≤ id ≤ 99999 and 1234 otherwise, and sets the benefits flag to
(id < 5000) computed from the RAW input id, not from the stored id. -/
theorem C1_amended_benefits (id : Int) :
    Employee.set_employee_num (.pyInt id) =
      .ok ((if 1000 ≤ id ∧ id ≤ 99999 then id else 1234), decide (id < 5000)) := by
  simp [Employee.set_employee_num, Employee.determine_benefits, PyVal.ltInt,
    Employee.validate_id, Employee.MIN_EMPLY_NUM, Employee.MAX_EMPLY_NUM,
    Employee.BENEFIT_ID, Employee.DEFAULT_NUM, PyVal.asInt]

/-- C2 (counterexample): on a supervisor with salary 195000 and five
workers, `bonus()` returns true but the stored salary becomes the
default 50000, not 195000 + 10000: the salary reassignment runs through
the validating setter and 205000 is out of range. -/
theorem C2_counterexample :
    (ShiftSupervisor.bonus supHighPay).2 = true ∧
      supHighPay.salary = 195000 ∧
      (ShiftSupervisor.bonus supHighPay).1.salary = 50000 := by
  refine ⟨rfl, rfl, rfl⟩

/-- C2 (amended): `bonus()` returns true iff the worker count exceeds 4;
a false-returning call changes nothing; a true-returning call adds
exactly 10000 when the raised salary is still within [50000, 200000],
and otherwise resets the salary to the default 50000. -/
theorem C2_amended_bonus (s : Supervisor) :
    ((ShiftSupervisor.bonus s).2 = true ↔ s.num_worker > 4) ∧
      ((ShiftSupervisor.bonus s).2 = false → (ShiftSupervisor.bonus s).1 = s) ∧
      (s.num_worker > 4 → 50000 ≤ s.salary + 10000 → s.salary + 10000 ≤ 200000 →
        (ShiftSupervisor.bonus s).1.salary = s.salary + 10000) ∧
      (s.num_worker > 4 → s.salary + 10000 > 200000 →
        (ShiftSupervisor.bonus s).1.salary = 50000) := by
  unfold ShiftSupervisor.bonus ShiftSupervisor.WORKERS_REQUIRED
    ShiftSupervisor.BONUS_ADD_TO_SALARY
  by_cases hb : s.num_worker > 4
  · rw [if_pos hb]
    refine ⟨by simp [hb], by simp, ?_, ?_⟩
    · intro _ hlo hhi
      show ShiftSupervisor.set_annual_salary (.pyInt (s.salary + 10000)) = _
      unfold ShiftSupervisor.set_annual_salary ShiftSupervisor.valid_salary
        ShiftSupervisor.MIN_SALARY ShiftSupervisor.MAX_SALARY
      rw [if_pos (by simp; omega)]
      rfl
    · intro _ hhi
      show ShiftSupervisor.set_annual_salary (.pyInt (s.salary + 10000)) = _
      unfold ShiftSupervisor.set_annual_salary ShiftSupervisor.valid_salary
        ShiftSupervisor.MIN_SALARY ShiftSupervisor.MAX_SALARY
        ShiftSupervisor.DEFAULT_SALARY
      rw [if_neg (by simp; omega)]
  · rw [if_neg hb]
    exact ⟨by simp [hb], fun _ => rfl, fun h => absurd h hb, fun h => absurd h hb⟩

/-- C2 (witness): on a supervisor with salary 60000 and five workers the
true-returning bonus call adds exactly 10000. -/
theorem C2_amended_bonus_witness :
    (ShiftSupervisor.bonus supMidPay).1.salary = supMidPay.salary + 10000 :=
  (C2_amended_bonus supMidPay).2.2.1 (by decide) (by decide) (by decide)

/-- C3 (counterexample): the empty string passes `validate_name` (it is a
string and `isnumeric` is false on it), so the name setter stores the
empty string rather than the default placeholder. -/
theorem C3_counterexample :
    Employee.set_employee_name (.pyStr ("")) = "" ∧
      Employee.DEFAULT_NAME ≠ "" := by
  refine ⟨rfl, by decide⟩

/-- C3 (amended): the name setter stores a string iff it is not purely
numeric (the empty string is not purely numeric, hence stored as-is),
and stores the default placeholder for every non-string value. -/
theorem C3_amended_name (s : String) :
    (Employee.set_employee_name (.pyStr s) =
      if isnumeric s then Employee.DEFAULT_NAME else s) ∧
      (∀ v : PyVal, (∀ t : String, v ≠ .pyStr t) →
        Employee.set_employee_name v = Employee.DEFAULT_NAME) ∧
      isnumeric ("") = false := by
  refine ⟨?_, ?_, by decide⟩
  · unfold Employee.set_employee_name Employee.validate_name
    by_cases h : isnumeric s
    · rw [if_neg (by simp [h]), if_pos h]
    · rw [if_pos (by simp [h]), if_neg h]
      rfl
  · intro v hv
    cases v with
    | pyStr t => exact absurd rfl (hv t)
    | pyInt n => rfl
    | pyBool b => rfl
    | pyShift sh => rfl
    | pyNone => rfl

/-- C3 (witness): a non-string input (None) gets the default name. -/
theorem C3_amended_name_witness :
    Employee.set_employee_name .pyNone = Employee.DEFAULT_NAME :=
  (C3_amended_name ("")).2.1 .pyNone (fun _ h => PyVal.noConfusion h)

/-- C6: adding a worker whose shift differs from the supervisor's is a
silent no-op: no error is signalled and the state (roster and worker
count included) is returned unchanged. -/
theorem C6_shift_mismatch_noop (s : Supervisor) (w : Worker)
    (h : w.shift ≠ s.shift) :
    ShiftSupervisor.add_to_array s w = .ok s := by
  apply add_to_array_mismatch
  simp [ShiftSupervisor.shift_valid]
  exact h

/-- C6 (witness): adding a NIGHT worker to a DAY supervisor changes
nothing and raises nothing. -/
theorem C6_shift_mismatch_noop_witness :
    ShiftSupervisor.add_to_array supCap1 workerNight = .ok supCap1 :=
  C6_shift_mismatch_noop supCap1 workerNight (by decide)

/-- C7: `gross_pay` returns rate * hours on an int rate in [0, 20] and
int hours in [0, 40], and returns 0 whenever either argument fails its
validation. -/
theorem C7_gross_pay (r h : Int) :
    (0 ≤ r → r ≤ 20 → 0 ≤ h → h ≤ 40 →
      ProductionWorker.gross_pay (.pyInt r) (.pyInt h) = r * h) ∧
      (∀ vr vh : PyVal,
        ProductionWorker.validate_rate vr = false ∨
          ProductionWorker.validate_hour vh = false →
        ProductionWorker.gross_pay vr vh = 0) := by
  constructor
  · intro hr0 hr1 hh0 hh1
    exact gross_pay_valid r h hr0 hr1 hh0 hh1
  · intro vr vh hor
    cases hor with
    | inl hbad => simp [ProductionWorker.gross_pay, hbad]
    | inr hbad => simp [ProductionWorker.gross_pay, hbad]

/-- C7 (witness): gross pay of a valid rate 3 and hours 4 is 12, and an
out-of-range rate 21 yields 0. -/
theorem C7_gross_pay_witness :
    ProductionWorker.gross_pay (.pyInt 3) (.pyInt 4) = 12 ∧
      ProductionWorker.gross_pay (.pyInt 21) (.pyInt 4) = 0 := by
  constructor
  · exact ((C7_gross_pay 3 4).1 (by decide) (by decide) (by decide) (by decide)).trans
      (by decide)
  · exact (C7_gross_pay 3 4).2 (.pyInt 21) (.pyInt 4) (Or.inl (by decide))

/-- C8: the worker shift setter stores a Shift member as-is, maps an int
in 1..3 to the corresponding member (1 DAY, 2 SWING, 3 NIGHT), and stores
the default DAY for every other value (any other int — e.g. 7 — or a
bool, a string, or None). -/
theorem C8_shift_setter :
    (∀ sh : Shift, ProductionWorker.set_employee_shift (.pyShift sh) = sh) ∧
      (∀ n : Int, 1 ≤ n → n ≤ 3 →
        ProductionWorker.set_employee_shift (.pyInt n) =
          ProductionWorker.shiftOfInt n) ∧
      (∀ n : Int, n < 1 ∨ 3 < n →
        ProductionWorker.set_employee_shift (.pyInt n) = Shift.DAY) ∧
      (∀ b : Bool, ProductionWorker.set_employee_shift (.pyBool b) = Shift.DAY) ∧
      (∀ t : String, ProductionWorker.set_employee_shift (.pyStr t) = Shift.DAY) ∧
      ProductionWorker.set_employee_shift .pyNone = Shift.DAY ∧
      ProductionWorker.shiftOfInt 1 = Shift.DAY ∧
      ProductionWorker.shiftOfInt 2 = Shift.SWING ∧
      ProductionWorker.shiftOfInt 3 = Shift.NIGHT := by
  refine ⟨fun sh => rfl, ?_, ?_, fun b => rfl, fun t => rfl, rfl, rfl, rfl, rfl⟩
  · intro n h1 h3
    show (if 1 ≤ n ∧ n ≤ 3 then ProductionWorker.shiftOfInt n
      else ProductionWorker.DEFAULT_SHIFT) = ProductionWorker.shiftOfInt n
    rw [if_pos ⟨h1, h3⟩]
  · intro n hor
    show (if 1 ≤ n ∧ n ≤ 3 then ProductionWorker.shiftOfInt n
      else ProductionWorker.DEFAULT_SHIFT) = Shift.DAY
    rw [if_neg (by omega : ¬ (1 ≤ n ∧ n ≤ 3))]
    rfl

/-- C8 (witness): the int 2 maps to SWING and the out-of-range int 7
falls back to DAY. -/
theorem C8_shift_setter_witness :
    ProductionWorker.set_employee_shift (.pyInt 2) = Shift.SWING ∧
      ProductionWorker.set_employee_shift (.pyInt 7) = Shift.DAY := by
  constructor
  · exact (C8_shift_setter.2.1 2 (by decide) (by decide)).trans (by decide)
  · exact C8_shift_setter.2.2.1 7 (Or.inr (by decide))

/-- C4 (counterexample): a supervisor constructed with an explicit worker
count of 5 and capacity 10 reports 5 workers while its roster holds no
entry at all. -/
theorem C4_counterexample :
    supQuirk.num_worker = 5 ∧
      ShiftSupervisor.occupied supQuirk.emp_array = 0 := by
  refine ⟨rfl, rfl⟩

/-- C4 (amended): after a construction with a non-positive (in particular
the default) worker count, every operation sequence keeps the worker
count equal to the number of entries actually held; after any
construction at all, the roster never holds more entries than it has
slots, and `add_to_array` never changes the number of slots (the
configured capacity). -/
theorem C4_amended_roster (s : Supervisor) :
    (ShiftSupervisor.ReachableSup0 s →
      (ShiftSupervisor.occupied s.emp_array : Int) = s.num_worker) ∧
      (ShiftSupervisor.ReachableSup s →
        ShiftSupervisor.occupied s.emp_array ≤ s.emp_array.length) ∧
      (∀ w : Worker,
        (ShiftSupervisor.addResult s w).emp_array.length = s.emp_array.length) := by
  refine ⟨?_, ?_, ?_⟩
  · intro h
    obtain ⟨k, ws, ha, heq⟩ := reachable0_rosterInv0 s h
    rw [ha, occupied_block]
    exact heq
  · intro h
    obtain ⟨k, ws, ha, _⟩ := reachable_rosterInv s h
    rw [ha, occupied_block]
    simp
  · intro w
    by_cases hv : ShiftSupervisor.shift_valid s w = true
    · by_cases hful : (s.emp_array.length : Int) ≤ s.num_worker
      · unfold ShiftSupervisor.addResult
        rw [add_to_array_full s w hv hful]
      · unfold ShiftSupervisor.addResult
        rw [add_to_array_success s w hv hful]
        show ((s.emp_array ++ [some w]).drop 1).length = s.emp_array.length
        simp
    · unfold ShiftSupervisor.addResult
      rw [add_to_array_mismatch s w hv]

/-- C4 (witness): in the concrete reachable state with one added worker,
the count equals the held entries. -/
theorem C4_amended_roster_witness :
    (ShiftSupervisor.occupied supFull.emp_array : Int) = supFull.num_worker :=
  (C4_amended_roster supFull).1
    (ShiftSupervisor.ReachableSup0.step supCap1 supFull
      (ShiftSupervisor.ReachableSup0.init (.pyStr ("Zach")) 1500 (.pyInt 60000)
        (.pyShift Shift.DAY) (.pyInt 1) 0 (by decide))
      (ShiftSupervisor.SStep.add supCap1 workerDay))

/-- C5: on every reachable supervisor whose roster is full (held entries
at least the slot count) adding a shift-matching worker raises `IsFull`
and leaves the whole state — roster and worker count included —
unchanged. -/
theorem C5_full_roster_signal (s : Supervisor) (w : Worker)
    (hre : ShiftSupervisor.ReachableSup s)
    (hfull : s.emp_array.length ≤ ShiftSupervisor.occupied s.emp_array)
    (hshift : w.shift = s.shift) :
    ShiftSupervisor.add_to_array s w = .error .isFull ∧
      ShiftSupervisor.addResult s w = s := by
  obtain ⟨k, ws, ha, hle⟩ := reachable_rosterInv s hre
  have hocc : ShiftSupervisor.occupied s.emp_array = ws.length := by
    rw [ha, occupied_block]
  have hlen : s.emp_array.length = k + ws.length := by rw [ha]; simp
  have hcond : (s.emp_array.length : Int) ≤ s.num_worker := by
    rw [hocc] at hfull
    rw [hlen] at hfull
    have hk : k = 0 := by omega
    rw [hlen, hk]
    push_cast
    omega
  have hsv : ShiftSupervisor.shift_valid s w = true := by
    simp [ShiftSupervisor.shift_valid]
    exact hshift
  have herr := add_to_array_full s w hsv hcond
  refine ⟨herr, ?_⟩
  unfold ShiftSupervisor.addResult
  rw [herr]

/-- C5 (witness): the reachable capacity-1 supervisor holding one DAY
worker signals IsFull on the next matching add. -/
theorem C5_full_roster_signal_witness :
    ShiftSupervisor.add_to_array supFull workerDay = .error .isFull :=
  (C5_full_roster_signal supFull workerDay
    (ShiftSupervisor.ReachableSup.step supCap1 supFull
      (ShiftSupervisor.ReachableSup.init (.pyStr ("Zach")) 1500 (.pyInt 60000)
        (.pyShift Shift.DAY) (.pyInt 1) 0)
      (ShiftSupervisor.SStep.add supCap1 workerDay))
    (by decide) (by decide)).1

/-- C9 (counterexample): the id setter raises TypeError on a string
input, because `determine_benefits` compares the raw input with 5000. -/
theorem C9_counterexample :
    Employee.set_employee_num (.pyStr ("abc")) = .error .typeError := rfl

/-- C9 (amended): the name, rate, hours, salary, capacity and shift
setters are total on every input — each stores the input value or its
fixed default — and the id setter succeeds exactly on inputs that are
order-comparable with an int (ints and bools), raising TypeError on all
others. -/
theorem C9_amended_setters (v : PyVal) :
    (Employee.set_employee_name v = Employee.DEFAULT_NAME ∨
      Employee.set_employee_name v = v.asStr) ∧
      (ProductionWorker.set_hourly_pay_rate v = ProductionWorker.DEFAULT_HOURLY_RAY_RATE ∨
        ProductionWorker.set_hourly_pay_rate v = v.asInt) ∧
      (ProductionWorker.set_hours_worked v = ProductionWorker.DEFAULT_HOURS_WORKED ∨
        ProductionWorker.set_hours_worked v = v.asInt) ∧
      (ShiftSupervisor.set_annual_salary v = ShiftSupervisor.DEFAULT_SALARY ∨
        ShiftSupervisor.set_annual_salary v = v.asInt) ∧
      (ShiftSupervisor.valid_arr_capacity v = ShiftSupervisor.DEFAULT_CAPACITY ∨
        ShiftSupervisor.valid_arr_capacity v = v.asInt) ∧
      (ProductionWorker.set_employee_shift v = ProductionWorker.DEFAULT_SHIFT ∨
        (∃ sh : Shift, v = .pyShift sh ∧
          ProductionWorker.set_employee_shift v = sh) ∨
        (∃ n : Int, v = .pyInt n ∧
          ProductionWorker.set_employee_shift v = ProductionWorker.shiftOfInt n)) ∧
      (v.intComparable = true → ∃ r, Employee.set_employee_num v = .ok r) ∧
      (v.intComparable = false →
        Employee.set_employee_num v = .error .typeError) := by
  refine ⟨?_, ?_, ?_, ?_, ?_, ?_, ?_, ?_⟩
  · exact ite_default_or (Employee.validate_name v) v.asStr Employee.DEFAULT_NAME
  · exact ite_default_or (ProductionWorker.validate_rate v) v.asInt
      ProductionWorker.DEFAULT_HOURLY_RAY_RATE
  · exact ite_default_or (ProductionWorker.validate_hour v) v.asInt
      ProductionWorker.DEFAULT_HOURS_WORKED
  · exact ite_default_or (ShiftSupervisor.valid_salary v) v.asInt
      ShiftSupervisor.DEFAULT_SALARY
  · cases v with
    | pyInt n =>
        show (if 0 < n then n else ShiftSupervisor.DEFAULT_CAPACITY) = _ ∨
          (if 0 < n then n else ShiftSupervisor.DEFAULT_CAPACITY) = _
        by_cases h : 0 < n
        · exact Or.inr (if_pos h)
        · exact Or.inl (if_neg h)
    | pyBool b => exact Or.inl rfl
    | pyStr t => exact Or.inl rfl
    | pyShift sh => exact Or.inl rfl
    | pyNone => exact Or.inl rfl
  · cases v with
    | pyShift sh => exact Or.inr (Or.inl ⟨sh, rfl, rfl⟩)
    | pyInt n =>
        by_cases h : 1 ≤ n ∧ n ≤ 3
        · refine Or.inr (Or.inr ⟨n, rfl, ?_⟩)
          show (if 1 ≤ n ∧ n ≤ 3 then ProductionWorker.shiftOfInt n
            else ProductionWorker.DEFAULT_SHIFT) = _
          exact if_pos h
        · refine Or.inl ?_
          show (if 1 ≤ n ∧ n ≤ 3 then ProductionWorker.shiftOfInt n
            else ProductionWorker.DEFAULT_SHIFT) = _
          exact if_neg h
    | pyBool b => exact Or.inl rfl
    | pyStr t => exact Or.inl rfl
    | pyNone => exact Or.inl rfl
  · intro h
    cases v with
    | pyInt n => exact ⟨_, rfl⟩
    | pyBool b => exact ⟨_, rfl⟩
    | pyStr t => simp [PyVal.intComparable] at h
    | pyShift sh => simp [PyVal.intComparable] at h
    | pyNone => simp [PyVal.intComparable] at h
  · intro h
    cases v with
    | pyInt n => simp [PyVal.intComparable] at h
    | pyBool b => simp [PyVal.intComparable] at h
    | pyStr t => rfl
    | pyShift sh => rfl
    | pyNone => rfl

/-- C9 (witness): the id setter succeeds on the int 5 and raises
TypeError on None. -/
theorem C9_amended_setters_witness :
    Employee.set_employee_num .pyNone = .error .typeError :=
  (C9_amended_setters .pyNone).2.2.2.2.2.2.2 rfl

/-- C10: on every worker state reachable by construction and setter
calls, the stored rate is in [0, 20], the stored hours are in [0, 40],
the stored shift is one of DAY, SWING, NIGHT, and `gross_pay` applied to
the stored fields returns their product (its 0 branch never fires on
stored state). -/
theorem C10_stored_invariants (w : Worker)
    (hre : ProductionWorker.ReachableW w) :
    (0 ≤ w.rate ∧ w.rate ≤ 20) ∧ (0 ≤ w.hour ∧ w.hour ≤ 40) ∧
      (w.shift = Shift.DAY ∨ w.shift = Shift.SWING ∨ w.shift = Shift.NIGHT) ∧
      ProductionWorker.gross_pay (.pyInt w.rate) (.pyInt w.hour) =
        w.rate * w.hour := by
  have main : (0 ≤ w.rate ∧ w.rate ≤ 20) ∧ (0 ≤ w.hour ∧ w.hour ≤ 40) := by
    induction hre with
    | init name number shift rate hour =>
        exact ⟨rate_range rate, hour_range hour⟩
    | step w w' hw hstep ih =>
        cases hstep with
        | setShift v => exact ih
        | setRate v => exact ⟨rate_range v, ih.2⟩
        | setHour v => exact ⟨ih.1, hour_range v⟩
        | setName v => exact ih
        | setNum n => exact ih
  refine ⟨main.1, main.2, ?_, ?_⟩
  · cases h : w.shift with
    | DAY => exact Or.inl rfl
    | SWING => exact Or.inr (Or.inl rfl)
    | NIGHT => exact Or.inr (Or.inr rfl)
  · exact gross_pay_valid w.rate w.hour main.1.1 main.1.2 main.2.1 main.2.2

/-- C10 (witness): the invariant instantiated at a concretely
constructed worker. -/
theorem C10_stored_invariants_witness :
    ProductionWorker.gross_pay (.pyInt workerDay.rate) (.pyInt workerDay.hour) =
      workerDay.rate * workerDay.hour :=
  (C10_stored_invariants workerDay
    (ProductionWorker.ReachableW.init (.pyStr ("Marco")) 2000
      (.pyShift Shift.DAY) (.pyInt 10) (.pyInt 10))).2.2.2

end SupWork
